import Mathlib

/-!
# amazon-ecs-agent, package `ecscni`: the CNI plugin configuration model

A shallow embedding of `agent/ecscni/types.go`: the fixed topology constants,
the three plugin configuration documents (`IPAMConfig`, `BridgeConfig`,
`ENIConfig`) with their `json` struct tags, and the per-task `Config`.

The documents are serialised the way Go's `encoding/json` treats struct tags:
the tag is split at its first comma into the key and the option list, an
option applies only when it equals one comma-separated item of that list
exactly, and a field carrying `omitempty` is dropped when its value is empty
(`false`, `0`, a zero-length string or slice; a struct is never empty).
A JSON document is kept as a tree, not as text.
-/

namespace ECSCNI

/-! ## Constants (`types.go`, the `const` block) -/

/-- VersionCommand is the command used to get the version of plugin. -/
def VersionCommand : String := "--version"

/-- The name of veth pair name in the container namespace. -/
def defaultEthName : String := "ecs-eth0"

/-- The default name of bridge created for container to communicate with
ecs-agent. -/
def defaultBridgeName : String := "ecs-bridge"

/-- Format used to construct the path to container network namespace. -/
def netnsFormat : String := "/proc/%s/ns/net"

/-- ECSSubnet is the available ip addresses to use for task networking. -/
def ECSSubnet : String := "169.254.172.0/22"

/-- TaskIAMRoleEndpoint is the endpoint of ecs-agent exposes credentials for
task IAM role. -/
def TaskIAMRoleEndpoint : String := "169.254.170.2/32"

/-- NetworkName is the name of the network set by the cni plugins. -/
def NetworkName : String := "ecs-task-network"

/-! ## `fmt.Sprintf` on string operands

The fragment of Go's `fmt.Sprintf` that a format such as `netnsFormat` with
string operands exercises: the verbs `%s` and `%v`, which print the operand,
and `%%`, which prints a percent sign and takes no operand. A verb without
operand prints `%!s(MISSING)` (with its own letter), a lone trailing `%`
prints `%!(NOVERB)`, and operands left over are listed in a trailing
`%!(EXTRA ...)`. Flags, width, precision and the other verbs are outside the
fragment: on a format that uses them the result is `none`. -/

/-- The listing of unused operands, `string=a, string=b`. -/
def extraOperands : List String → List Char
  | [] => []
  | [a] => "string=".data ++ a.data
  | a :: rest => "string=".data ++ a.data ++ ", ".data ++ extraOperands rest

/-- What is printed for the operands no verb consumed. -/
def extraSuffix : List String → List Char
  | [] => []
  | a :: rest => "%!(EXTRA ".data ++ extraOperands (a :: rest) ++ [')']

/-- The formatting loop of `Sprintf` over the characters of the format. -/
def sprintfAux : List Char → List String → Option (List Char)
  | [], args => some (extraSuffix args)
  | ['%'], args => some ("%!(NOVERB)".data ++ extraSuffix args)
  | '%' :: v :: fmt, args =>
      if v = '%' then (sprintfAux fmt args).map (fun out => '%' :: out)
      else if v = 's' ∨ v = 'v' then
        match args with
        | [] =>
            (sprintfAux fmt []).map (fun out => "%!".data ++ [v] ++ "(MISSING)".data ++ out)
        | a :: rest => (sprintfAux fmt rest).map (fun out => a.data ++ out)
      else none
  | c :: fmt, args => (sprintfAux fmt args).map (fun out => c :: out)

/-- Go `fmt.Sprintf(format, args...)` for string operands. -/
def Sprintf (format : String) (args : List String) : Option String :=
  (sprintfAux format.data args).map String.mk

/-- Number of verbs (placeholders) of a format, `%%` not counted. -/
def countVerbs : List Char → Nat
  | [] => 0
  | ['%'] => 0
  | '%' :: '%' :: fmt => countVerbs fmt
  | '%' :: _ :: fmt => countVerbs fmt + 1
  | _ :: fmt => countVerbs fmt

/-! ## The per-task `Config` -/

/-- The per-task configuration, `type Config struct` of `types.go`. -/
structure Config where
  /-- PluginsPath indicates the path where cni plugins are located -/
  PluginsPath : String := ""
  /-- MinSupportedCNIVersion is the minimum cni spec version supported -/
  MinSupportedCNIVersion : String := ""
  /-- ENIID is the id of ec2 eni -/
  ENIID : String := ""
  /-- ContainerID is the id of container of which to set up the network namespace -/
  ContainerID : String := ""
  /-- ContainerPID is the pid of the container -/
  ContainerPID : String := ""
  /-- ENIIPV4Address is the ipv4 assigned to the eni -/
  ENIIPV4Address : String := ""
  /-- ENIIPV6Address is the ipv6 assigned to the eni -/
  ENIIPV6Address : String := ""
  /-- ENIMACAddress is the mac address of the eni -/
  ENIMACAddress : String := ""
  /-- BridgeName is the name used to create the bridge -/
  BridgeName : String := ""
  /-- IPAMV4Address is the ipv4 used to assign from ipam -/
  IPAMV4Address : String := ""
  /-- ID is the information associate with ip in ipam -/
  ID : String := ""

/-! ## JSON documents and struct tags (`encoding/json`) -/

/-- A JSON document as a tree; an object keeps its members in order. -/
inductive JSON where
  | null
  | bool (b : Bool)
  | num (n : Int)
  | str (s : String)
  | arr (items : List JSON)
  | obj (members : List (String × JSON))

/-- The keys of an object, in order; any other document has none. -/
def JSON.keys : JSON → List String
  | .obj members => members.map Prod.fst
  | _ => []

/-- The value stored under a key of an object (the first one). -/
def JSON.get? (key : String) : JSON → Option JSON
  | .obj members => (members.find? (fun m => m.1 = key)).map Prod.snd
  | _ => none

/-- `parseTag` of `encoding/json`: the tag up to its first comma is the name,
what follows that comma is the option list. -/
def parseTagAux : List Char → List Char × List Char
  | [] => ([], [])
  | c :: cs => if c = ',' then ([], cs) else ((parseTagAux cs).1.cons c, (parseTagAux cs).2)

/-- Name and option list of a `json` struct tag. -/
def parseTag (tag : String) : String × String :=
  (String.mk (parseTagAux tag.data).1, String.mk (parseTagAux tag.data).2)

/-- The comma-separated items of an option list, each taken verbatim
(blanks are not trimmed). -/
def splitComma : List Char → List (List Char)
  | [] => [[]]
  | c :: cs =>
      if c = ',' then [] :: splitComma cs
      else match splitComma cs with
        | [] => [[c]]
        | w :: ws => (c :: w) :: ws

/-- `tagOptions.Contains`: whether the option list has an item equal to
`optionName`; the empty list has none. -/
def tagOptionsContains (opts : String) (optionName : String) : Bool :=
  if opts.data = [] then false
  else (splitComma opts.data).any (fun item => item = optionName.data)

/-- `isValidTag` of `encoding/json` on ASCII names: a non-empty name made of
letters, digits and the listed punctuation. -/
def isValidTag (name : String) : Bool :=
  name.data ≠ [] ∧
    name.data.all (fun c =>
      c ∈ "!#$%&()*+-./:<=>?@[]^_\x7b|\x7d~ ".data ∨ c.isAlpha ∨ c.isDigit)

/-- The Go values that occur as fields of the three documents; a nested
struct and the elements of a slice are carried in encoded form. -/
inductive GoValue where
  | string (s : String)
  | bool (b : Bool)
  | int (n : Int)
  | slice (items : List JSON)
  | struct (doc : JSON)

/-- `isEmptyValue` of `encoding/json`: zero length for strings and slices,
`false`, `0`; a struct is never empty. -/
def isEmptyValue : GoValue → Bool
  | .string s => s.length == 0
  | .bool b => !b
  | .int n => n == 0
  | .slice items => items.length == 0
  | .struct _ => false

/-- The encoding of a field value. -/
def GoValue.encode : GoValue → JSON
  | .string s => .str s
  | .bool b => .bool b
  | .int n => .num n
  | .slice items => .arr items
  | .struct doc => doc

/-- An exported struct field: its Go name, its `json` tag and its value. -/
structure StructField where
  goName : String
  tag : String
  value : GoValue

/-- The object member a field contributes, if any: a field tagged `-` is
skipped, a field with the `omitempty` option is skipped when empty, and the
key is the tag name when that is a valid name, else the Go field name. -/
def encodeField (f : StructField) : Option (String × JSON) :=
  if f.tag = "-" then none
  else if tagOptionsContains (parseTag f.tag).2 "omitempty" && isEmptyValue f.value then none
  else some (if isValidTag (parseTag f.tag).1 then (parseTag f.tag).1 else f.goName,
             f.value.encode)

/-- `json.Marshal` of a struct given by its fields in declaration order. -/
def marshalStruct (fields : List StructField) : JSON :=
  .obj (fields.filterMap encodeField)

/-- The optional member of a document: absent when the field is empty. -/
def optMember (key : String) (empty : Bool) (v : JSON) : List (String × JSON) :=
  if empty then [] else [(key, v)]

/-! ## The plugin configuration documents -/

/-- A route of the CNI library (`types.Route`): destination network in CIDR
form and gateway address, the latter empty when unset. -/
structure Route where
  Dst : String
  GW : String := ""

/-- The library's own encoding of a route pointer: `null` for a nil pointer,
else an object with `dst` and, when a gateway is set, `gw`. -/
def Route.encode : Option Route → JSON
  | none => .null
  | some r => .obj ((("dst", JSON.str r.Dst)) ::
      (if r.GW.length == 0 then [] else [("gw", JSON.str r.GW)]))

/-- The ipam plugin configuration, `type IPAMConfig struct`. -/
structure IPAMConfig where
  /-- Type is the cni plugin name (Go field `Type`) -/
  Type_ : String := ""
  /-- ID is the information stored in the ipam along with ip as key-value pair -/
  ID : String := ""
  /-- CNIVersion is the cni spec version to use -/
  CNIVersion : String := ""
  /-- IPV4Subnet is the ip address range managed by ipam -/
  IPV4Subnet : String := ""
  /-- IPV4Address is the ip address to deal with (assign or release) in ipam -/
  IPV4Address : String := ""
  /-- IPV4Gateway is the gateway returned by ipam -/
  IPV4Gateway : String := ""
  /-- IPV4Routes is the route to added in the container namespace -/
  IPV4Routes : List (Option Route) := []

/-- The fields of `IPAMConfig` with their struct tags, in declaration order. -/
def IPAMConfig.fields (c : IPAMConfig) : List StructField :=
  [ ⟨"Type", "type,omitempty", .string c.Type_⟩,
    ⟨"ID", "id,omitempty", .string c.ID⟩,
    ⟨"CNIVersion", "cniVersion,omitempty", .string c.CNIVersion⟩,
    ⟨"IPV4Subnet", "ipv4-subnet,omitempty", .string c.IPV4Subnet⟩,
    ⟨"IPV4Address", "ipv4-address,omitempty", .string c.IPV4Address⟩,
    ⟨"IPV4Gateway", "ipv4-gateway,omitempty", .string c.IPV4Gateway⟩,
    ⟨"IPV4Routes", "ipv4-routes,omitempty", .slice (c.IPV4Routes.map Route.encode)⟩ ]

/-- The serialised `IPAMConfig`. -/
def IPAMConfig.marshal (c : IPAMConfig) : JSON := marshalStruct c.fields

/-- The bridge plugin configuration, `type BridgeConfig struct`. -/
structure BridgeConfig where
  /-- Type is the cni plugin name (Go field `Type`) -/
  Type_ : String := ""
  /-- CNIVersion is the cni spec version to use -/
  CNIVersion : String := ""
  /-- BridgeName is the name of bridge -/
  BridgeName : String := ""
  /-- IsGW indicates whether the bridge act as a gateway -/
  IsGW : Bool := false
  /-- IsDefaultGW indicates whether the bridge is the gateway of the container -/
  IsDefaultGW : Bool := false
  /-- ForceAddress indicates whether a new ip should be assigned if the bridge
  has already a different ip -/
  ForceAddress : Bool := false
  /-- IPMasq indicates whether to setup the IP Masquerade for traffic
  originating from this network -/
  IPMasq : Bool := false
  /-- MTU sets MTU of the bridge interface -/
  MTU : Int := 0
  /-- HairpinMode sets the hairpin mode of interface on the bridge -/
  HairpinMode : Bool := false
  /-- IPAM is the configuration to acquire ip/route from ipam plugin -/
  IPAM : IPAMConfig := {}

/-- The fields of `BridgeConfig` with their struct tags, in declaration order. -/
def BridgeConfig.fields (c : BridgeConfig) : List StructField :=
  [ ⟨"Type", "type,omitempty", .string c.Type_⟩,
    ⟨"CNIVersion", "cniVersion,omitempty", .string c.CNIVersion⟩,
    ⟨"BridgeName", "bridge", .string c.BridgeName⟩,
    ⟨"IsGW", "isGateway", .bool c.IsGW⟩,
    ⟨"IsDefaultGW", "isDefaultGateway", .bool c.IsDefaultGW⟩,
    ⟨"ForceAddress", "forceAddress", .bool c.ForceAddress⟩,
    ⟨"IPMasq", "ipMasq", .bool c.IPMasq⟩,
    ⟨"MTU", "mtu", .int c.MTU⟩,
    ⟨"HairpinMode", "hairpinMode", .bool c.HairpinMode⟩,
    ⟨"IPAM", "ipam,omitempty", .struct c.IPAM.marshal⟩ ]

/-- The serialised `BridgeConfig`. -/
def BridgeConfig.marshal (c : BridgeConfig) : JSON := marshalStruct c.fields

/-- The eni plugin configuration, `type ENIConfig struct`. -/
structure ENIConfig where
  /-- Type is the cni plugin name (Go field `Type`) -/
  Type_ : String := ""
  /-- CNIVersion is the cni spec version to use -/
  CNIVersion : String := ""
  /-- ENIID is the id of ec2 eni -/
  ENIID : String := ""
  /-- IPV4Address is the ipv4 of eni -/
  IPV4Address : String := ""
  /-- IPV6Address is the ipv6 of eni -/
  IPV6Address : String := ""
  /-- MACAddress is the mac address of eni -/
  MACAddress : String := ""

/-- The fields of `ENIConfig` with their struct tags, in declaration order;
the tag of `IPV6Address` reads `ipv6-address, omitempty`, with a blank after
the comma, as in the source. -/
def ENIConfig.fields (c : ENIConfig) : List StructField :=
  [ ⟨"Type", "type,omitempty", .string c.Type_⟩,
    ⟨"CNIVersion", "cniVersion,omitempty", .string c.CNIVersion⟩,
    ⟨"ENIID", "eni", .string c.ENIID⟩,
    ⟨"IPV4Address", "ipv4-address", .string c.IPV4Address⟩,
    ⟨"IPV6Address", "ipv6-address, omitempty", .string c.IPV6Address⟩,
    ⟨"MACAddress", "mac", .string c.MACAddress⟩ ]

/-- The serialised `ENIConfig`. -/
def ENIConfig.marshal (c : ENIConfig) : JSON := marshalStruct c.fields

/-! ## IPv4 CIDR notation (`net.ParseCIDR`, `net.IPNet.Contains`)

An IPv4 address is a natural number below `2 ^ 32`, its first octet the most
significant one. -/

/-- Value of a run of decimal digits, `none` at the first other character. -/
def parseDecimalAux : List Char → Nat → Option Nat
  | [], acc => some acc
  | c :: cs, acc =>
      if 48 ≤ c.toNat ∧ c.toNat ≤ 57 then parseDecimalAux cs (acc * 10 + (c.toNat - 48))
      else none

/-- A whole field read as a decimal number: a non-empty run of digits. -/
def parseDecimal (s : List Char) : Option Nat :=
  if s = [] then none else parseDecimalAux s 0

/-- The fields of a dotted address. -/
def splitDots : List Char → List (List Char)
  | [] => [[]]
  | c :: cs =>
      if c = '.' then [] :: splitDots cs
      else match splitDots cs with
        | [] => [[c]]
        | w :: ws => (c :: w) :: ws

/-- `parseIPv4`: exactly four decimal fields, each at most 255. -/
def parseIPv4 (s : List Char) : Option (List Nat) :=
  match (splitDots s).map parseDecimal with
  | [some a, some b, some c, some d] =>
      if a ≤ 255 ∧ b ≤ 255 ∧ c ≤ 255 ∧ d ≤ 255 then some [a, b, c, d] else none
  | _ => none

/-- The text before and after the first `/`, `none` without one. -/
def splitSlash : List Char → Option (List Char × List Char)
  | [] => none
  | c :: cs =>
      if c = '/' then some ([], cs)
      else (splitSlash cs).map (fun p => (c :: p.1, p.2))

/-- The address with the given octets, most significant first. -/
def ipOfOctets (octets : List Nat) : Nat :=
  octets.foldl (fun acc o => acc * 256 + o) 0

/-- The address `a.b.c.d`. -/
def ipv4 (a b c d : Nat) : Nat := ipOfOctets [a, b, c, d]

/-- `net.CIDRMask(ones, 32)`: `ones` one-bits followed by zero-bits. -/
def CIDRMask (ones : Nat) : Nat := (2 ^ ones - 1) <<< (32 - ones)

/-- `net.IPNet` for IPv4: the network address and the prefix length. -/
structure IPNet where
  IP : Nat
  Ones : Nat
deriving DecidableEq

/-- What `ParseCIDR` returns: the octets of the address as written and the
network it lies in. -/
structure CIDR where
  octets : List Nat
  net : IPNet
deriving DecidableEq

/-- `net.ParseCIDR` on IPv4 notation `a.b.c.d/n` with `n` at most 32; the
network address is the written address under the mask. -/
def ParseCIDR (s : String) : Option CIDR :=
  match splitSlash s.data with
  | none => none
  | some (addr, mask) =>
      match parseIPv4 addr, parseDecimal mask with
      | some octets, some n =>
          if n ≤ 32 then some ⟨octets, ⟨ipOfOctets octets &&& CIDRMask n, n⟩⟩ else none
      | _, _ => none

/-- `IPNet.Contains`: the address under the mask is the network address. -/
def IPNet.Contains (n : IPNet) (ip : Nat) : Bool :=
  decide (ip < 2 ^ 32) && (ip &&& CIDRMask n.Ones == n.IP)

/-! ## Builders and orchestrator

`types.go` declares the documents and the `CNIClient` interface; the
functions that fill the documents and drive the plugins are not part of it.
They are modelled here from the design description. -/

/-- Modelled from the spec: the values the description leaves to the
implementation and `types.go` does not declare (the three plugin type names,
the bridge MTU and hairpin mode). -/
structure PluginSettings where
  ipamType : String
  bridgeType : String
  eniType : String
  mtu : Int
  hairpinMode : Bool

/-- The plugin steps of the pipeline. -/
inductive Step where
  | IPAM
  | Bridge
  | ENI
deriving DecidableEq, Repr

/-- The CNI command of an invocation. -/
inductive Command where
  | ADD
  | DEL
deriving DecidableEq, Repr

/-- The error kinds of the error handling design. -/
inductive CNIError where
  | ValidationError (msg : String)
  | InvocationError (step : Step) (unwindFailed : List Step)
  | TimeoutError (step : Step) (unwindFailed : List Step)
  | AggregateError (failed : List Step)
deriving DecidableEq, Repr

/-- Modelled from the spec: `BuildIPAMConfig` (its code is not in `types.go`):
copies the reserved subnet constant, sets the type to the ipam plugin name,
propagates the tracking identifier and the minimum spec version, and carries
the address of `Config`, empty to request an allocation. -/
def BuildIPAMConfig (s : PluginSettings) (cfg : Config) : IPAMConfig :=
  { Type_ := s.ipamType
    ID := cfg.ID
    CNIVersion := cfg.MinSupportedCNIVersion
    IPV4Subnet := ECSSubnet
    IPV4Address := cfg.IPAMV4Address }

/-- Modelled from the spec: `BuildBridgeConfig` (its code is not in
`types.go`): the bridge name of `Config` or the default one, gateway yes,
default gateway no, force address yes, masquerade no, the IPAM config of the
previous step embedded, and a host route to the credentials endpoint
appended to its routes. -/
def BuildBridgeConfig (s : PluginSettings) (cfg : Config) : BridgeConfig :=
  { Type_ := s.bridgeType
    CNIVersion := cfg.MinSupportedCNIVersion
    BridgeName := if cfg.BridgeName = "" then defaultBridgeName else cfg.BridgeName
    IsGW := true
    IsDefaultGW := false
    ForceAddress := true
    IPMasq := false
    MTU := s.mtu
    HairpinMode := s.hairpinMode
    IPAM :=
      { BuildIPAMConfig s cfg with
        IPV4Routes := (BuildIPAMConfig s cfg).IPV4Routes ++
          [some { Dst := TaskIAMRoleEndpoint }] } }

/-- Modelled from the spec: `BuildENIConfig` (its code is not in `types.go`):
the ENI identifier, its IPv4 address and its MAC address are all required,
a missing one is a validation error; the IPv6 address is carried as given. -/
def BuildENIConfig (s : PluginSettings) (cfg : Config) : Except CNIError ENIConfig :=
  if cfg.ENIID = "" then .error (.ValidationError "ENI id required")
  else if cfg.ENIIPV4Address = "" then .error (.ValidationError "IPv4 address required")
  else if cfg.ENIMACAddress = "" then .error (.ValidationError "MAC address required")
  else .ok
    { Type_ := s.eniType
      CNIVersion := cfg.MinSupportedCNIVersion
      ENIID := cfg.ENIID
      IPV4Address := cfg.ENIIPV4Address
      IPV6Address := cfg.ENIIPV6Address
      MACAddress := cfg.ENIMACAddress }

/-- Modelled from the spec: the step list of one call (the orchestrator is
not in `types.go`): IPAM, then bridge, then ENI when `Config` names one; the
documents are built and validated before any plugin runs. -/
def plan (s : PluginSettings) (cfg : Config) : Except CNIError (List (Step × JSON)) :=
  if cfg.ENIID = "" then
    .ok [(.IPAM, (BuildIPAMConfig s cfg).marshal), (.Bridge, (BuildBridgeConfig s cfg).marshal)]
  else
    match BuildENIConfig s cfg with
    | .error e => .error e
    | .ok eni =>
        .ok [(.IPAM, (BuildIPAMConfig s cfg).marshal),
             (.Bridge, (BuildBridgeConfig s cfg).marshal), (.ENI, eni.marshal)]

/-- One run of an external plugin binary as seen at the process boundary;
the namespace path is absent when the format could not be filled. -/
structure Invocation where
  command : Command
  step : Step
  conf : JSON
  containerID : String
  netns : Option String
  network : String
  ifName : String

/-- How a plugin process ends. -/
inductive Outcome where
  | success
  | failure
  | timeout
deriving DecidableEq, Repr

/-- Modelled from the spec: the invocation of a step (the invoker is not in
`types.go`): the namespace path is `netnsFormat` filled with the container
process id, the network name and interface name are the fixed constants. -/
def invocation (cmd : Command) (cfg : Config) (st : Step × JSON) : Invocation :=
  { command := cmd
    step := st.1
    conf := st.2
    containerID := cfg.ContainerID
    netns := Sprintf netnsFormat [cfg.ContainerPID]
    network := NetworkName
    ifName := defaultEthName }

/-- Modelled from the spec: best-effort teardown of the given steps in the
given order (not in `types.go`); `outcome k` is how the `k`-th process of the
call ends and `n` counts the processes started so far. Every step is
attempted; the result is the invocations made and the steps that failed. -/
def cleanupLoop (outcome : Nat → Outcome) (cfg : Config) :
    List (Step × JSON) → Nat → List Invocation × List Step
  | [], _ => ([], [])
  | st :: rest, n =>
      (invocation .DEL cfg st :: (cleanupLoop outcome cfg rest (n + 1)).1,
       if outcome n = .success then (cleanupLoop outcome cfg rest (n + 1)).2
       else st.1 :: (cleanupLoop outcome cfg rest (n + 1)).2)

/-- Modelled from the spec: the setup state machine (not in `types.go`):
the steps run in order; when one fails, the steps that succeeded (`done`,
latest first) get a cleanup attempt and the original error is returned with
the failed unwind steps attached. -/
def setupLoop (outcome : Nat → Outcome) (cfg : Config) :
    List (Step × JSON) → List (Step × JSON) → Nat → List Invocation × Except CNIError Unit
  | [], _, _ => ([], .ok ())
  | st :: rest, done, n =>
      match outcome n with
      | .success =>
          (invocation .ADD cfg st :: (setupLoop outcome cfg rest (st :: done) (n + 1)).1,
           (setupLoop outcome cfg rest (st :: done) (n + 1)).2)
      | .failure =>
          (invocation .ADD cfg st :: (cleanupLoop outcome cfg done (n + 1)).1,
           .error (.InvocationError st.1 (cleanupLoop outcome cfg done (n + 1)).2))
      | .timeout =>
          (invocation .ADD cfg st :: (cleanupLoop outcome cfg done (n + 1)).1,
           .error (.TimeoutError st.1 (cleanupLoop outcome cfg done (n + 1)).2))

/-- Modelled from the spec: `SetupNS` of the `CNIClient` interface (only its
signature is in `types.go`): the invocations made and the result. A
validation error is returned before any plugin is invoked. -/
def SetupNS (s : PluginSettings) (outcome : Nat → Outcome) (cfg : Config) :
    List Invocation × Except CNIError Unit :=
  match plan s cfg with
  | .error e => ([], .error e)
  | .ok steps => setupLoop outcome cfg steps [] 0

/-- Modelled from the spec: `CleanupNS` of the `CNIClient` interface (only its
signature is in `types.go`): the steps of the plan in reverse order, each
attempted whatever the others did; success only if every step succeeded,
else an aggregate error naming the failed steps. -/
def CleanupNS (s : PluginSettings) (outcome : Nat → Outcome) (cfg : Config) :
    List Invocation × Except CNIError Unit :=
  match plan s cfg with
  | .error e => ([], .error e)
  | .ok steps =>
      ((cleanupLoop outcome cfg steps.reverse 0).1,
       if (cleanupLoop outcome cfg steps.reverse 0).2 = [] then .ok ()
       else .error (.AggregateError (cleanupLoop outcome cfg steps.reverse 0).2))

/-- The steps a trace invokes with the given command, in order. -/
def stepsOf (cmd : Command) (trace : List Invocation) : List Step :=
  (trace.filter (fun i => i.command = cmd)).map (fun i => i.step)

/-! ## Sample inputs -/

/-- Sample settings: plugin type names, MTU and hairpin mode. -/
def sampleSettings : PluginSettings :=
  { ipamType := "ecs-ipam", bridgeType := "ecs-bridge", eniType := "ecs-eni",
    mtu := 1500, hairpinMode := false }

/-- A task with a fully described ENI. -/
def sampleENITask : Config :=
  { ContainerPID := "1234", ENIID := "eni-123", ENIMACAddress := "02:00:00:00:00:01",
    ENIIPV4Address := "10.0.0.5" }

/-- The scenario of an ENI requested without a MAC address. -/
def sampleNoMAC : Config :=
  { ContainerPID := "1234", ENIID := "eni-123", ENIMACAddress := "",
    ENIIPV4Address := "10.0.0.5" }

/-- An `ENIConfig` without an IPv6 address. -/
def sampleENIv4Only : ENIConfig :=
  { Type_ := "ecs-eni", CNIVersion := "0.3.0", ENIID := "eni-123",
    IPV4Address := "10.0.0.5", IPV6Address := "", MACAddress := "02:00:00:00:00:01" }

/-- Every plugin process of a call succeeds. -/
def allSucceed : Nat → Outcome := fun _ => .success

/-! ## Auxiliary lemmas -/

theorem string_length_beq_zero (s : String) : (s.length == 0) = decide (s = "") := by
  rcases s with ⟨l⟩
  cases l <;> simp [String.length, String.ext_iff]

theorem list_length_beq_zero {α : Type} (l : List α) : (l.length == 0) = l.isEmpty := by
  cases l <;> simp

/-- A field whose option list is exactly `omitempty`. -/
theorem encodeField_omitempty (goName key : String) (v : GoValue) (tag : String)
    (h1 : tag ≠ "-") (h2 : parseTag tag = (key, "omitempty")) (h3 : isValidTag key = true) :
    encodeField ⟨goName, tag, v⟩ = if isEmptyValue v then none else some (key, v.encode) := by
  have h4 : tagOptionsContains "omitempty" "omitempty" = true := by decide
  simp [encodeField, h1, h2, h3, h4]

/-- A field whose option list has no `omitempty` item. -/
theorem encodeField_always (goName key opts : String) (v : GoValue) (tag : String)
    (h1 : tag ≠ "-") (h2 : parseTag tag = (key, opts)) (h3 : isValidTag key = true)
    (h4 : tagOptionsContains opts "omitempty" = false) :
    encodeField ⟨goName, tag, v⟩ = some (key, v.encode) := by
  simp [encodeField, h1, h2, h3, h4]

/-- The members of a serialised `ENIConfig`. -/
theorem eniConfig_marshal_eq (c : ENIConfig) :
    c.marshal = .obj
      ((if c.Type_ = "" then [] else [("type", .str c.Type_)]) ++
       (if c.CNIVersion = "" then [] else [("cniVersion", .str c.CNIVersion)]) ++
       [("eni", .str c.ENIID), ("ipv4-address", .str c.IPV4Address),
        ("ipv6-address", .str c.IPV6Address), ("mac", .str c.MACAddress)]) := by
  simp only [ENIConfig.marshal, marshalStruct, ENIConfig.fields, List.filterMap_cons,
    List.filterMap_nil]
  rw [encodeField_omitempty "Type" "type" _ _ (by decide) (by decide) (by decide),
    encodeField_omitempty "CNIVersion" "cniVersion" _ _ (by decide) (by decide) (by decide),
    encodeField_always "ENIID" "eni" "" _ _ (by decide) (by decide) (by decide) (by decide),
    encodeField_always "IPV4Address" "ipv4-address" "" _ _
      (by decide) (by decide) (by decide) (by decide),
    encodeField_always "IPV6Address" "ipv6-address" " omitempty" _ _
      (by decide) (by decide) (by decide) (by decide),
    encodeField_always "MACAddress" "mac" "" _ _ (by decide) (by decide) (by decide) (by decide)]
  simp only [isEmptyValue, string_length_beq_zero, GoValue.encode]
  by_cases h1 : c.Type_ = "" <;> by_cases h2 : c.CNIVersion = "" <;> simp [h1, h2]

theorem filterMap_cons_ite {α β : Type} (f : α → Option β) (a : α) (l : List α) (b : Bool)
    (x : β) (h : f a = if b then none else some x) :
    List.filterMap f (a :: l) = (if b then [] else [x]) ++ List.filterMap f l := by
  cases b <;> simp [List.filterMap_cons, h]

/-- The members of a serialised `IPAMConfig`. -/
theorem ipamConfig_marshal_eq (c : IPAMConfig) :
    c.marshal = .obj
      (optMember "type" (decide (c.Type_ = "")) (.str c.Type_) ++
       (optMember "id" (decide (c.ID = "")) (.str c.ID) ++
       (optMember "cniVersion" (decide (c.CNIVersion = "")) (.str c.CNIVersion) ++
       (optMember "ipv4-subnet" (decide (c.IPV4Subnet = "")) (.str c.IPV4Subnet) ++
       (optMember "ipv4-address" (decide (c.IPV4Address = "")) (.str c.IPV4Address) ++
       (optMember "ipv4-gateway" (decide (c.IPV4Gateway = "")) (.str c.IPV4Gateway) ++
       (optMember "ipv4-routes" c.IPV4Routes.isEmpty
          (.arr (c.IPV4Routes.map Route.encode)) ++ []))))))) := by
  simp only [IPAMConfig.marshal, marshalStruct, IPAMConfig.fields, optMember]
  rw [filterMap_cons_ite _ _ _ _ _
      (encodeField_omitempty "Type" "type" _ _ (by decide) (by decide) (by decide)),
    filterMap_cons_ite _ _ _ _ _
      (encodeField_omitempty "ID" "id" _ _ (by decide) (by decide) (by decide)),
    filterMap_cons_ite _ _ _ _ _
      (encodeField_omitempty "CNIVersion" "cniVersion" _ _ (by decide) (by decide) (by decide)),
    filterMap_cons_ite _ _ _ _ _
      (encodeField_omitempty "IPV4Subnet" "ipv4-subnet" _ _
        (by decide) (by decide) (by decide)),
    filterMap_cons_ite _ _ _ _ _
      (encodeField_omitempty "IPV4Address" "ipv4-address" _ _
        (by decide) (by decide) (by decide)),
    filterMap_cons_ite _ _ _ _ _
      (encodeField_omitempty "IPV4Gateway" "ipv4-gateway" _ _
        (by decide) (by decide) (by decide)),
    filterMap_cons_ite _ _ _ _ _
      (encodeField_omitempty "IPV4Routes" "ipv4-routes" _ _
        (by decide) (by decide) (by decide))]
  simp only [isEmptyValue, string_length_beq_zero, list_length_beq_zero, GoValue.encode,
    List.filterMap_nil]
  cases c.IPV4Routes <;> rfl

theorem mem_keys_optMember (k key : String) (empty : Bool) (v : JSON) :
    k ∈ (optMember key empty v).map Prod.fst ↔ (empty = false ∧ k = key) := by
  cases empty <;> simp [optMember]


theorem filterMap_cons_some {α β : Type} (f : α → Option β) (a : α) (l : List α) (x : β)
    (h : f a = some x) : List.filterMap f (a :: l) = x :: List.filterMap f l := by
  simp [List.filterMap_cons, h]

/-- The members of a serialised `BridgeConfig`. -/
theorem bridgeConfig_marshal_eq (c : BridgeConfig) :
    c.marshal = .obj
      (optMember "type" (decide (c.Type_ = "")) (.str c.Type_) ++
       (optMember "cniVersion" (decide (c.CNIVersion = "")) (.str c.CNIVersion) ++
       [("bridge", .str c.BridgeName), ("isGateway", .bool c.IsGW),
        ("isDefaultGateway", .bool c.IsDefaultGW), ("forceAddress", .bool c.ForceAddress),
        ("ipMasq", .bool c.IPMasq), ("mtu", .num c.MTU), ("hairpinMode", .bool c.HairpinMode),
        ("ipam", c.IPAM.marshal)])) := by
  simp only [BridgeConfig.marshal, marshalStruct, BridgeConfig.fields, optMember]
  rw [filterMap_cons_ite _ _ _ _ _
      (encodeField_omitempty "Type" "type" _ _ (by decide) (by decide) (by decide)),
    filterMap_cons_ite _ _ _ _ _
      (encodeField_omitempty "CNIVersion" "cniVersion" _ _ (by decide) (by decide) (by decide)),
    filterMap_cons_some _ _ _ _
      (encodeField_always "BridgeName" "bridge" "" _ _
        (by decide) (by decide) (by decide) (by decide)),
    filterMap_cons_some _ _ _ _
      (encodeField_always "IsGW" "isGateway" "" _ _
        (by decide) (by decide) (by decide) (by decide)),
    filterMap_cons_some _ _ _ _
      (encodeField_always "IsDefaultGW" "isDefaultGateway" "" _ _
        (by decide) (by decide) (by decide) (by decide)),
    filterMap_cons_some _ _ _ _
      (encodeField_always "ForceAddress" "forceAddress" "" _ _
        (by decide) (by decide) (by decide) (by decide)),
    filterMap_cons_some _ _ _ _
      (encodeField_always "IPMasq" "ipMasq" "" _ _
        (by decide) (by decide) (by decide) (by decide)),
    filterMap_cons_some _ _ _ _
      (encodeField_always "MTU" "mtu" "" _ _ (by decide) (by decide) (by decide) (by decide)),
    filterMap_cons_some _ _ _ _
      (encodeField_always "HairpinMode" "hairpinMode" "" _ _
        (by decide) (by decide) (by decide) (by decide)),
    filterMap_cons_ite _ _ _ false ("ipam", c.IPAM.marshal)
      (by
        rw [encodeField_omitempty "IPAM" "ipam" _ _ (by decide) (by decide) (by decide)]
        simp [isEmptyValue, GoValue.encode])]
  simp only [isEmptyValue, string_length_beq_zero, GoValue.encode, List.filterMap_nil]
  rfl

theorem get?_optMember_ne (key k : String) (empty : Bool) (v : JSON)
    (rest : List (String × JSON)) (h : k ≠ key) :
    JSON.get? key (.obj (optMember k empty v ++ rest)) = JSON.get? key (.obj rest) := by
  cases empty <;> simp [optMember, JSON.get?, List.find?_cons, h]

/-- Under an IPv4 mask only the leading `ones` bits of an address remain. -/
theorem and_CIDRMask (ip ones : Nat) :
    ip &&& CIDRMask ones = (ip / 2 ^ (32 - ones) % 2 ^ ones) * 2 ^ (32 - ones) := by
  rw [← Nat.shiftRight_eq_div_pow, ← Nat.shiftLeft_eq]
  apply Nat.eq_of_testBit_eq
  intro i
  simp only [CIDRMask, Nat.testBit_and, Nat.testBit_shiftLeft, Nat.testBit_two_pow_sub_one,
    Nat.testBit_mod_two_pow, Nat.testBit_shiftRight]
  by_cases h : 32 - ones ≤ i
  · have : 32 - ones + (i - (32 - ones)) = i := by omega
    simp [h, this, Bool.and_comm]
  · simp [h]

/-- The addresses of the network `169.254.172.0/22`. -/
theorem contains_ecs_iff (ip : Nat) :
    IPNet.Contains ⟨ipv4 169 254 172 0, 22⟩ ip = true ↔
      ipv4 169 254 172 0 ≤ ip ∧ ip ≤ ipv4 169 254 175 255 := by
  simp only [IPNet.Contains, Bool.and_eq_true, decide_eq_true_eq, beq_iff_eq, and_CIDRMask,
    ipv4, ipOfOctets, List.foldl]
  norm_num
  omega

theorem stepsOf_cleanupLoop_DEL (outcome : Nat → Outcome) (cfg : Config)
    (steps : List (Step × JSON)) (n : Nat) :
    stepsOf .DEL (cleanupLoop outcome cfg steps n).1 = steps.map Prod.fst := by
  induction steps generalizing n with
  | nil => rfl
  | cons st rest ih =>
      have := ih (n + 1)
      simp only [stepsOf] at this
      simp [cleanupLoop, stepsOf, invocation, this]

theorem stepsOf_cleanupLoop_ADD (outcome : Nat → Outcome) (cfg : Config)
    (steps : List (Step × JSON)) (n : Nat) :
    stepsOf .ADD (cleanupLoop outcome cfg steps n).1 = [] := by
  induction steps generalizing n with
  | nil => rfl
  | cons st rest ih =>
      have := ih (n + 1)
      simp only [stepsOf] at this
      simp [cleanupLoop, stepsOf, invocation, this]

theorem step_mem_cleanupLoop (outcome : Nat → Outcome) (cfg : Config)
    (steps : List (Step × JSON)) (n : Nat) :
    (cleanupLoop outcome cfg steps n).1.map (fun i => i.step) = steps.map Prod.fst := by
  induction steps generalizing n with
  | nil => rfl
  | cons st rest ih => simp [cleanupLoop, invocation, ih (n + 1)]

/-- The steps setup starts are an initial part of its step list. -/
theorem stepsOf_setupLoop_prefix (outcome : Nat → Outcome) (cfg : Config)
    (steps done : List (Step × JSON)) (n : Nat) :
    stepsOf .ADD (setupLoop outcome cfg steps done n).1 <+: steps.map Prod.fst := by
  induction steps generalizing done n with
  | nil => simp [setupLoop, stepsOf]
  | cons st rest ih =>
      have h1 := ih (st :: done) (n + 1)
      have h2 := stepsOf_cleanupLoop_ADD outcome cfg done (n + 1)
      simp only [stepsOf] at h1 h2
      cases h : outcome n <;>
        simp [setupLoop, h, stepsOf, invocation, List.filter_cons, h1, h2, List.cons_prefix_cons]

/-- A setup that succeeds started every step and tore none down. -/
theorem stepsOf_setupLoop_ok (outcome : Nat → Outcome) (cfg : Config)
    (steps done : List (Step × JSON)) (n : Nat)
    (hok : (setupLoop outcome cfg steps done n).2 = .ok ()) :
    stepsOf .ADD (setupLoop outcome cfg steps done n).1 = steps.map Prod.fst := by
  induction steps generalizing done n with
  | nil => simp [setupLoop, stepsOf]
  | cons st rest ih =>
      cases h : outcome n with
      | success =>
          have hok2 : (setupLoop outcome cfg rest (st :: done) (n + 1)).2 = .ok () := by
            simpa [setupLoop, h] using hok
          have h1 := ih (st :: done) (n + 1) hok2
          simp only [stepsOf] at h1
          simp [setupLoop, h, stepsOf, invocation, List.filter_cons, h1]
      | failure => simp [setupLoop, h] at hok
      | timeout => simp [setupLoop, h] at hok

/-- Every step setup touches, starting or unwinding, is one of its lists. -/
theorem step_mem_setupLoop (outcome : Nat → Outcome) (cfg : Config)
    (steps done : List (Step × JSON)) (n : Nat) (x : Step)
    (hx : x ∈ (setupLoop outcome cfg steps done n).1.map (fun i => i.step)) :
    x ∈ steps.map Prod.fst ∨ x ∈ done.map Prod.fst := by
  induction steps generalizing done n with
  | nil => simp [setupLoop] at hx
  | cons st rest ih =>
      cases h : outcome n with
      | success =>
          simp only [setupLoop, h, List.map_cons, List.mem_cons] at hx
          rcases hx with hx | hx
          · left; simp [hx, invocation]
          · rcases ih (st :: done) (n + 1) hx with h1 | h1
            · left; simp only [List.map_cons, List.mem_cons]; right; exact h1
            · simp only [List.map_cons, List.mem_cons] at h1
              rcases h1 with h1 | h1
              · left; simp [h1]
              · right; exact h1
      | failure =>
          simp only [setupLoop, h, List.map_cons, List.mem_cons, step_mem_cleanupLoop] at hx
          rcases hx with hx | hx
          · left; simp [hx, invocation]
          · right; exact hx
      | timeout =>
          simp only [setupLoop, h, List.map_cons, List.mem_cons, step_mem_cleanupLoop] at hx
          rcases hx with hx | hx
          · left; simp [hx, invocation]
          · right; exact hx

/-- The step list of a call that passes validation. -/
theorem plan_steps (s : PluginSettings) (cfg : Config) (steps : List (Step × JSON))
    (h : plan s cfg = .ok steps) :
    steps.map Prod.fst = if cfg.ENIID = "" then [.IPAM, .Bridge] else [.IPAM, .Bridge, .ENI] := by
  unfold plan at h
  by_cases he : cfg.ENIID = ""
  · simp only [he, if_true] at h
    cases h
    simp [he]
  · simp only [he, if_false] at h
    cases hb : BuildENIConfig s cfg with
    | error e => simp [hb] at h
    | ok eni =>
        simp only [hb] at h
        cases h
        simp [he]

/-! ## Properties of the specification -/

/-- C1: the fixed topology constants have the documented values: the version
flag `--version`, the interface name `ecs-eth0`, the bridge name `ecs-bridge`,
the task subnet `169.254.172.0/22`, the credentials endpoint
`169.254.170.2/32` and the network name `ecs-task-network`. -/
theorem constants_have_documented_values :
    ECSSubnet = "169.254.172.0/22" ∧ TaskIAMRoleEndpoint = "169.254.170.2/32" ∧
    defaultEthName = "ecs-eth0" ∧ defaultBridgeName = "ecs-bridge" ∧
    NetworkName = "ecs-task-network" ∧ VersionCommand = "--version" :=
  ⟨rfl, rfl, rfl, rfl, rfl, rfl⟩

/-- C2: `netnsFormat` has a single placeholder, and filling it with the
container process id of any `Config` gives `/proc/<pid>/ns/net`; for the pid
`1234` the path is `/proc/1234/ns/net`. -/
theorem netns_path_of_container_pid (cfg : Config) :
    countVerbs netnsFormat.data = 1 ∧
    Sprintf netnsFormat [cfg.ContainerPID] =
      some ("/proc/" ++ cfg.ContainerPID ++ "/ns/net") ∧
    Sprintf netnsFormat ["1234"] = some "/proc/1234/ns/net" := by
  refine ⟨by decide, ?_, by decide⟩
  simp [Sprintf, netnsFormat, sprintfAux, extraSuffix, String.ext_iff]

/-- C3: the serialised `ENIConfig` does not drop an empty IPv6 address. The
option list of the `IPV6Address` tag is ` omitempty` with a leading blank, no
item of it equals `omitempty`, so every document carries the four keys
`eni`, `ipv4-address`, `ipv6-address` and `mac`; the sample without an IPv6
address serialises with `ipv6-address` bound to the empty string. -/
theorem eni_ipv6_key_emitted_when_empty :
    parseTag "ipv6-address, omitempty" = ("ipv6-address", " omitempty") ∧
    tagOptionsContains " omitempty" "omitempty" = false ∧
    (∀ c : ENIConfig,
      "eni" ∈ c.marshal.keys ∧ "ipv4-address" ∈ c.marshal.keys ∧ "mac" ∈ c.marshal.keys ∧
      "ipv6-address" ∈ c.marshal.keys) ∧
    sampleENIv4Only.IPV6Address = "" ∧
    sampleENIv4Only.marshal.keys =
      ["type", "cniVersion", "eni", "ipv4-address", "ipv6-address", "mac"] ∧
    sampleENIv4Only.marshal.get? "ipv6-address" = some (.str "") := by
  refine ⟨by decide, by decide, ?_, rfl, by decide, ?_⟩
  · intro c
    rw [eniConfig_marshal_eq]
    simp [JSON.keys]
  · rw [eniConfig_marshal_eq]
    simp [JSON.get?, sampleENIv4Only, List.find?_cons]

/-- C4: each of the seven fields of an `IPAMConfig` is a key of the serialised
document exactly when the field is non-empty, the document has no other key,
and the zero `IPAMConfig` serialises to the empty object. -/
theorem ipam_key_present_iff_nonempty (c : IPAMConfig) :
    ("type" ∈ c.marshal.keys ↔ c.Type_ ≠ "") ∧
    ("id" ∈ c.marshal.keys ↔ c.ID ≠ "") ∧
    ("cniVersion" ∈ c.marshal.keys ↔ c.CNIVersion ≠ "") ∧
    ("ipv4-subnet" ∈ c.marshal.keys ↔ c.IPV4Subnet ≠ "") ∧
    ("ipv4-address" ∈ c.marshal.keys ↔ c.IPV4Address ≠ "") ∧
    ("ipv4-gateway" ∈ c.marshal.keys ↔ c.IPV4Gateway ≠ "") ∧
    ("ipv4-routes" ∈ c.marshal.keys ↔ c.IPV4Routes ≠ []) ∧
    (∀ k ∈ c.marshal.keys, k ∈ ["type", "id", "cniVersion", "ipv4-subnet", "ipv4-address",
      "ipv4-gateway", "ipv4-routes"]) ∧
    IPAMConfig.marshal {} = .obj [] := by
  refine ⟨?_, ?_, ?_, ?_, ?_, ?_, ?_, ?_, ?_⟩
  case refine_9 => rw [ipamConfig_marshal_eq]; rfl
  case refine_8 =>
    intro k
    simp only [ipamConfig_marshal_eq, JSON.keys, List.map_append, List.mem_append,
      mem_keys_optMember]
    simp only [List.map_nil, List.not_mem_nil, or_false, List.mem_cons]
    rintro (h | h | h | h | h | h | h) <;> simp [h.2]
  all_goals
    simp only [ipamConfig_marshal_eq, JSON.keys, List.map_append, List.mem_append,
      mem_keys_optMember]
    simp

/-- C5: for every `Config` the IPAM document built has the subnet
`169.254.172.0/22`, so has the IPAM document embedded in the bridge document,
and the routes of the latter contain a route to `169.254.170.2/32`. -/
theorem builders_set_subnet_and_route (s : PluginSettings) (cfg : Config) :
    (BuildIPAMConfig s cfg).IPV4Subnet = "169.254.172.0/22" ∧
    (BuildBridgeConfig s cfg).IPAM.IPV4Subnet = "169.254.172.0/22" ∧
    ∃ r : Route, some r ∈ (BuildBridgeConfig s cfg).IPAM.IPV4Routes ∧
      r.Dst = "169.254.170.2/32" :=
  ⟨rfl, rfl, ⟨{ Dst := TaskIAMRoleEndpoint }, by simp [BuildBridgeConfig], rfl⟩⟩

/-- C6: cleanup reverses the order of setup. When setup started the steps
IPAM, bridge, ENI, cleanup of the same `Config` invokes ENI, bridge, IPAM;
after any successful setup the steps of cleanup are the steps of setup
reversed; and when `ENIID` is empty neither call touches the ENI step. -/
theorem cleanup_reverses_setup (s : PluginSettings) (o1 o2 : Nat → Outcome) (cfg : Config) :
    (stepsOf .ADD (SetupNS s o1 cfg).1 = [.IPAM, .Bridge, .ENI] →
      stepsOf .DEL (CleanupNS s o2 cfg).1 = [.ENI, .Bridge, .IPAM]) ∧
    ((SetupNS s o1 cfg).2 = .ok () →
      stepsOf .DEL (CleanupNS s o2 cfg).1 = (stepsOf .ADD (SetupNS s o1 cfg).1).reverse) ∧
    (cfg.ENIID = "" →
      Step.ENI ∉ (SetupNS s o1 cfg).1.map (fun i => i.step) ∧
      Step.ENI ∉ (CleanupNS s o2 cfg).1.map (fun i => i.step)) := by
  cases hp : plan s cfg with
  | error e =>
      refine ⟨?_, ?_, ?_⟩
      · intro h; simp [SetupNS, hp, stepsOf] at h
      · intro h; simp [SetupNS, hp] at h
      · intro _; simp [SetupNS, CleanupNS, hp]
  | ok steps =>
      have hsteps := plan_steps s cfg steps hp
      have hpre := stepsOf_setupLoop_prefix o1 cfg steps [] 0
      have hdel : stepsOf .DEL (CleanupNS s o2 cfg).1 = (steps.map Prod.fst).reverse := by
        simp [CleanupNS, hp, stepsOf_cleanupLoop_DEL]
      refine ⟨?_, ?_, ?_⟩
      · intro h
        simp only [SetupNS, hp] at h
        rw [h, hsteps] at hpre
        by_cases he : cfg.ENIID = ""
        · simp [he] at hpre
        · rw [hdel, hsteps]; simp [he]
      · intro h
        simp only [SetupNS, hp] at h
        rw [hdel]
        simp only [SetupNS, hp]
        rw [stepsOf_setupLoop_ok o1 cfg steps [] 0 h]
      · intro he
        simp only [he, if_true] at hsteps
        constructor
        · intro hx
          simp only [SetupNS, hp] at hx
          rcases step_mem_setupLoop o1 cfg steps [] 0 _ hx with h1 | h1
          · rw [hsteps] at h1; simp at h1
          · simp at h1
        · simp only [CleanupNS, hp, step_mem_cleanupLoop, List.map_reverse, hsteps]
          decide

/-- Witness of C6: a task with an ENI whose setup runs IPAM, bridge, ENI is
cleaned up in the order ENI, bridge, IPAM. -/
theorem cleanup_reverses_setup_witness :
    stepsOf .ADD (SetupNS sampleSettings allSucceed sampleENITask).1 = [.IPAM, .Bridge, .ENI] ∧
    stepsOf .DEL (CleanupNS sampleSettings allSucceed sampleENITask).1 =
      [.ENI, .Bridge, .IPAM] :=
  ⟨by decide,
   (cleanup_reverses_setup sampleSettings allSucceed allSucceed sampleENITask).1 (by decide)⟩

/-- C7: with an ENI identifier and no MAC address `BuildENIConfig` fails with a
validation error and setup invokes no plugin; an `ENIConfig` is produced only
when the ENI identifier, the IPv4 address and the MAC address of `Config` are
all non-empty, and it carries them. -/
theorem eni_config_requires_all_fields (s : PluginSettings) (cfg : Config) :
    (cfg.ENIID ≠ "" → cfg.ENIMACAddress = "" →
      ∃ msg, BuildENIConfig s cfg = .error (.ValidationError msg) ∧
        ∀ o, SetupNS s o cfg = ([], .error (.ValidationError msg))) ∧
    (∀ eni, BuildENIConfig s cfg = .ok eni →
      cfg.ENIID ≠ "" ∧ cfg.ENIIPV4Address ≠ "" ∧ cfg.ENIMACAddress ≠ "" ∧
      eni.ENIID = cfg.ENIID ∧ eni.IPV4Address = cfg.ENIIPV4Address ∧
      eni.MACAddress = cfg.ENIMACAddress) := by
  constructor
  · intro hid hmac
    by_cases h4 : cfg.ENIIPV4Address = ""
    · exact ⟨"IPv4 address required", by simp [BuildENIConfig, hid, h4],
        fun o => by simp [SetupNS, plan, BuildENIConfig, hid, h4]⟩
    · exact ⟨"MAC address required", by simp [BuildENIConfig, hid, h4, hmac],
        fun o => by simp [SetupNS, plan, BuildENIConfig, hid, h4, hmac]⟩
  · intro eni h
    unfold BuildENIConfig at h
    split_ifs at h with h1 h2 h3
    cases h
    exact ⟨h1, h2, h3, rfl, rfl, rfl⟩

/-- Witness of C7: the scenario with ENI `eni-123`, IPv4 address `10.0.0.5` and
no MAC address fails validation and starts no plugin. -/
theorem eni_config_requires_all_fields_witness :
    ∃ msg, BuildENIConfig sampleSettings sampleNoMAC = .error (.ValidationError msg) ∧
      ∀ o, SetupNS sampleSettings o sampleNoMAC = ([], .error (.ValidationError msg)) :=
  (eni_config_requires_all_fields sampleSettings sampleNoMAC).1 (by decide) rfl

/-- C8: every serialised `BridgeConfig` carries the keys `bridge`, `isGateway`,
`isDefaultGateway`, `forceAddress`, `ipMasq`, `mtu`, `hairpinMode` and `ipam`,
whatever the field values, and the value under each of them is the value of
its own field alone. -/
theorem bridge_flags_always_serialised (c : BridgeConfig) :
    (∀ k ∈ ["bridge", "isGateway", "isDefaultGateway", "forceAddress", "ipMasq", "mtu",
      "hairpinMode", "ipam"], k ∈ c.marshal.keys) ∧
    c.marshal.get? "bridge" = some (.str c.BridgeName) ∧
    c.marshal.get? "isGateway" = some (.bool c.IsGW) ∧
    c.marshal.get? "isDefaultGateway" = some (.bool c.IsDefaultGW) ∧
    c.marshal.get? "forceAddress" = some (.bool c.ForceAddress) ∧
    c.marshal.get? "ipMasq" = some (.bool c.IPMasq) ∧
    c.marshal.get? "mtu" = some (.num c.MTU) ∧
    c.marshal.get? "hairpinMode" = some (.bool c.HairpinMode) ∧
    c.marshal.get? "ipam" = some c.IPAM.marshal := by
  refine ⟨?_, ?_, ?_, ?_, ?_, ?_, ?_, ?_, ?_⟩
  case refine_1 =>
    intro k hk
    simp only [bridgeConfig_marshal_eq, JSON.keys, List.map_append, List.mem_append]
    right; right
    simpa using hk
  all_goals
    rw [bridgeConfig_marshal_eq, get?_optMember_ne _ _ _ _ _ (by decide),
      get?_optMember_ne _ _ _ _ _ (by decide)]
    simp [JSON.get?, List.find?_cons]

/-- C9: `ECSSubnet` is valid IPv4 CIDR: it parses to the four octets
169, 254, 172, 0, each at most 255, and the prefix length 22, at most 32; the
written address is the network address, its low 10 bits being zero; and the
network holds exactly the 1024 addresses from 169.254.172.0 to
169.254.175.255. -/
theorem ecs_subnet_is_valid_cidr :
    ParseCIDR ECSSubnet = some ⟨[169, 254, 172, 0], ⟨ipv4 169 254 172 0, 22⟩⟩ ∧
    (∀ o ∈ [169, 254, 172, 0], o ≤ 255) ∧ 22 ≤ 32 ∧
    ipv4 169 254 172 0 % 2 ^ (32 - 22) = 0 ∧
    ipv4 169 254 172 0 &&& CIDRMask 22 = ipv4 169 254 172 0 ∧
    (∀ ip, IPNet.Contains ⟨ipv4 169 254 172 0, 22⟩ ip = true ↔
      ipv4 169 254 172 0 ≤ ip ∧ ip ≤ ipv4 169 254 175 255) ∧
    ((Finset.range (2 ^ 32)).filter
      (fun ip => IPNet.Contains ⟨ipv4 169 254 172 0, 22⟩ ip = true)).card = 1024 := by
  refine ⟨by decide, by decide, by decide, by decide, by decide, contains_ecs_iff, ?_⟩
  have h : (Finset.range (2 ^ 32)).filter
      (fun ip => IPNet.Contains ⟨ipv4 169 254 172 0, 22⟩ ip = true) =
      Finset.Icc (ipv4 169 254 172 0) (ipv4 169 254 175 255) := by
    ext ip
    simp only [Finset.mem_filter, Finset.mem_range, Finset.mem_Icc, contains_ecs_iff]
    constructor
    · exact fun h => h.2
    · intro h
      refine ⟨?_, h⟩
      have : ipv4 169 254 175 255 < 2 ^ 32 := by decide
      omega
  rw [h, Nat.card_Icc]
  decide

/-- C10: the credentials endpoint `169.254.170.2` (a `/32` prefix) lies outside
the task subnet `ECSSubnet`: under the 22-bit mask it becomes 169.254.168.0,
not 169.254.172.0, so no address of the subnet equals the endpoint and no
address of the endpoint's network is in the subnet. -/
theorem credentials_endpoint_outside_ecs_subnet :
    ParseCIDR TaskIAMRoleEndpoint = some ⟨[169, 254, 170, 2], ⟨ipv4 169 254 170 2, 32⟩⟩ ∧
    ParseCIDR ECSSubnet = some ⟨[169, 254, 172, 0], ⟨ipv4 169 254 172 0, 22⟩⟩ ∧
    ipv4 169 254 170 2 &&& CIDRMask 22 = ipv4 169 254 168 0 ∧
    ipv4 169 254 168 0 ≠ ipv4 169 254 172 0 ∧
    IPNet.Contains ⟨ipv4 169 254 172 0, 22⟩ (ipv4 169 254 170 2) = false ∧
    (∀ ip, IPNet.Contains ⟨ipv4 169 254 172 0, 22⟩ ip = true → ip ≠ ipv4 169 254 170 2) ∧
    (∀ ip, IPNet.Contains ⟨ipv4 169 254 170 2, 32⟩ ip = true →
      IPNet.Contains ⟨ipv4 169 254 172 0, 22⟩ ip = false) := by
  refine ⟨by decide, by decide, by decide, by decide, by decide, ?_, ?_⟩
  · intro ip h heq
    rw [contains_ecs_iff] at h
    have h1 : ipv4 169 254 170 2 < ipv4 169 254 172 0 := by decide
    omega
  · intro ip h
    have h32 : ip = ipv4 169 254 170 2 := by
      simp only [IPNet.Contains, Bool.and_eq_true, decide_eq_true_eq, beq_iff_eq,
        and_CIDRMask] at h
      have h2 := h.2
      norm_num at h2
      have h1 : ip < 4294967296 := by simpa using h.1
      rw [Nat.mod_eq_of_lt h1] at h2
      exact h2
    rw [h32]
    decide

end ECSCNI
